import Mathlib

/-!
# NetStalker — verification of the wardriving pipeline spec against the code

The repository ships the map front end (`app.js`), the statistics page
(`stats.js`) and documentation.  The Python data pipeline (`build_data.py`,
the Vendor Directory / Identity Merger / Document Emitter of the spec) is not
part of the checked-out sources, so those components are modelled from the
spec; the front-end code is embedded directly from the JavaScript.

Machine conventions: JavaScript numbers appearing in the data (rssi, channel,
counts) are embedded as `Int`/`Nat`; geographic coordinates are embedded as
`Int` (fixed-point micro-degrees), which preserves every property at stake
here (equality of points, choice of representative).  Missing JSON properties
are `Option` values, and JavaScript truthiness coercion (`x || d`) is made
explicit.
-/

namespace NetStalker

/-! ## JavaScript semantics helpers -/

/-- JS `s || d` on a string-valued property: `undefined` and `""` are falsy. -/
def jsOrStr (v : Option String) (d : String) : String :=
  match v with
  | some s => if s = "" then d else s
  | none => d

/-- JS `n || d` on a number-valued property: `undefined` and `0` are falsy. -/
def jsOrInt (v : Option Int) (d : Int) : Int :=
  match v with
  | some n => if n = 0 then d else n
  | none => d

/-- Does `pat` occur at the head of `cs`?  (helper for `jsIncludes`). -/
def headMatches : List Char → List Char → Bool
  | [], _ => true
  | _ :: _, [] => false
  | p :: ps, c :: cs => p = c && headMatches ps cs

/-- JS `String.prototype.includes`: substring containment. -/
def listIncludes (pat : List Char) : List Char → Bool
  | [] => headMatches pat []
  | c :: cs => headMatches pat (c :: cs) || listIncludes pat cs

/-- JS `s.includes(pat)`. -/
def jsIncludes (s pat : String) : Bool :=
  listIncludes pat.data s.data

/-- JS `parseInt(s)` (radix 10): skip leading whitespace, optional sign,
take the leading run of digits; `NaN` (here `none`) if there are none. -/
def parseIntJS (s : String) : Option Int :=
  let cs := s.data.dropWhile (fun c => c = ' ' || c = '\t' || c = '\n' || c = '\r')
  let signAndRest : Int × List Char :=
    match cs with
    | '-' :: rest => (-1, rest)
    | '+' :: rest => (1, rest)
    | _ => (1, cs)
  let ds := signAndRest.2.takeWhile Char.isDigit
  if ds.isEmpty then none
  else some (signAndRest.1 * (ds.foldl (fun a c => 10 * a + (c.toNat - 48)) 0 : Nat))

/-- JS `String.prototype.toUpperCase` over the character data (the auth modes
are ASCII). -/
def jsToUpper (s : String) : String := ⟨s.data.map Char.toUpper⟩

/-- JS `String.prototype.toLowerCase` over the character data. -/
def jsToLower (s : String) : String := ⟨s.data.map Char.toLower⟩

/-- Split a character list at commas (helper for `jsSplitComma`). -/
def splitCommaAux : List Char → List Char → List String
  | [], acc => [⟨acc.reverse⟩]
  | c :: cs, acc =>
    if c = ',' then ⟨acc.reverse⟩ :: splitCommaAux cs [] else splitCommaAux cs (c :: acc)

/-- JS `s.split(',')`.  As in JavaScript, `"".split(',')` is `[""]`. -/
def jsSplitComma (s : String) : List String := splitCommaAux s.data []

/-- Lexicographic order on character lists, as `localeCompare` gives on the
ASCII date strings (`"2026-02-04"`) it is applied to. -/
def charListLt : List Char → List Char → Bool
  | [], [] => false
  | [], _ :: _ => true
  | _ :: _, [] => false
  | a :: as, b :: bs => if a = b then charListLt as bs else decide (a < b)

/-! ## Data as seen by the front end (`wardrive.geojson` feature properties) -/

/-- The properties of an access-point feature as read by `app.js`/`stats.js`.
Fields that the JavaScript guards against being absent are `Option`s. -/
structure APProps where
  MAC : String
  SSID : String
  AuthMode : String
  Vendor : Option String
  best_rssi : Option Int
  Channel : Option String
  sessions : Option String
  deriving Repr, DecidableEq

/-! ## `stats.js` — `updateStatsPage` -/

/-- Security class assigned by the stats page. -/
inductive SecClass where
  | wpa3
  | wpa2
  | openNet
  | legacy
  deriving Repr, DecidableEq

/-- stats.js lines 57–71: `const auth = (p.AuthMode || "").toUpperCase()` and the
security if-chain.  On a string-valued `AuthMode` the `|| ""` coercion is the
identity (it replaces `""` by `""`). -/
def classifySecurity (authMode : String) : SecClass :=
  let auth := jsToUpper authMode
  if jsIncludes auth "WPA3" then .wpa3
  else if jsIncludes auth "WPA2" then .wpa2
  else if jsIncludes auth "OPEN" || auth = "" || auth = "[]" then .openNet
  else .legacy

/-- The four security counters of stats.js line 39. -/
structure SecCounts where
  wpa3 : Nat
  wpa2 : Nat
  legacy : Nat
  openNet : Nat
  deriving Repr, DecidableEq

def SecCounts.total (c : SecCounts) : Nat := c.wpa3 + c.wpa2 + c.openNet + c.legacy

/-- One iteration of the security-classification branch of the loop. -/
def secStep (c : SecCounts) (authMode : String) : SecCounts :=
  match classifySecurity authMode with
  | .wpa3 => { c with wpa3 := c.wpa3 + 1 }
  | .wpa2 => { c with wpa2 := c.wpa2 + 1 }
  | .openNet => { c with openNet := c.openNet + 1 }
  | .legacy => { c with legacy := c.legacy + 1 }

/-- The five signal-strength counters of stats.js lines 41–47. -/
structure RssiRanges where
  excellent : Nat
  good : Nat
  fair : Nat
  weak : Nat
  poor : Nat
  deriving Repr, DecidableEq

def RssiRanges.total (r : RssiRanges) : Nat :=
  r.excellent + r.good + r.fair + r.weak + r.poor

/-- stats.js lines 77–81: the signal-strength if-chain. -/
def rssiStep (r : RssiRanges) (rssi : Int) : RssiRanges :=
  if rssi ≥ -60 then { r with excellent := r.excellent + 1 }
  else if rssi ≥ -70 then { r with good := r.good + 1 }
  else if rssi ≥ -80 then { r with fair := r.fair + 1 }
  else if rssi ≥ -90 then { r with weak := r.weak + 1 }
  else { r with poor := r.poor + 1 }

/-- stats.js line 86: `parseInt(p.Channel || 0)` — a missing or empty channel
property coerces to the number `0`, which `parseInt` receives as `"0"`. -/
def channelArg (channel : Option String) : String :=
  match channel with
  | some s => if s = "" then "0" else s
  | none => "0"

/-- The channel value the loop compares against 1..14 (`none` = `NaN`). -/
def channelOf (channel : Option String) : Option Int := parseIntJS (channelArg channel)

/-- The 2.4 GHz bucket a feature lands in, if any (stats.js lines 86–89). -/
def channelBucket (channel : Option String) : Option Int :=
  match channelOf channel with
  | some ch => if 1 ≤ ch ∧ ch ≤ 14 then some ch else none
  | none => none

/-- The accumulating state of the stats loop (security, signal, channel). -/
structure StatsState where
  sec : SecCounts
  rssi : RssiRanges
  channelCounts : Int → Nat

/-- One iteration of the `features.forEach` loop of stats.js lines 55–90. -/
def statsStep (st : StatsState) (p : APProps) : StatsState :=
  let rssi := jsOrInt p.best_rssi (-100)
  let st1 : StatsState := { st with sec := secStep st.sec p.AuthMode }
  let st2 : StatsState := { st1 with rssi := rssiStep st1.rssi rssi }
  match channelOf p.Channel with
  | some ch =>
    if 1 ≤ ch ∧ ch ≤ 14 then
      { st2 with channelCounts := fun c => if c = ch then st2.channelCounts c + 1 else st2.channelCounts c }
    else st2
  | none => st2

def initStats : StatsState := ⟨⟨0, 0, 0, 0⟩, ⟨0, 0, 0, 0, 0⟩, fun _ => 0⟩

/-- The whole stats loop. -/
def runStats (fs : List APProps) : StatsState := fs.foldl statsStep initStats

/-- stats.js line 38: `totalWifi = features.length`. -/
def totalWifi (fs : List APProps) : Nat := fs.length

/-- stats.js line 97: `f.properties.Vendor || 'Unknown'`. -/
def jsVendor (p : APProps) : String := jsOrStr p.Vendor "Unknown"

/-- One iteration of the vendor-count loop of stats.js lines 96–99. -/
def vendorStep (vc : String → Nat) (p : APProps) : String → Nat :=
  fun v => if v = jsVendor p then vc v + 1 else vc v

/-! ## `app.js` — layer partition, popups, filters, session dropdown -/

/-- A feature as the map consumer sees it before partitioning: only the
`layer` property matters for the split. -/
structure ConsumerFeature where
  layer : Option String
  featureId : Nat
  deriving Repr, DecidableEq

/-- app.js line 42: `data.features.filter(f => f.properties.layer === 'access_points')`. -/
def apFeatureSel (fs : List ConsumerFeature) : List ConsumerFeature :=
  fs.filter (fun f => f.layer == some "access_points")

/-- app.js line 43 (and line 562 in `toggleTheme`):
`data.features.filter(f => f.properties.layer === 'route')`. -/
def routeFeatureSel (fs : List ConsumerFeature) : List ConsumerFeature :=
  fs.filter (fun f => f.layer == some "route")

/-- app.js lines 157–160 and 175–178: the filter of the `points-open-glow` and
`points-open` layers, `["any", AuthMode == "OPEN", AuthMode == ""]`. -/
def openLayerFilter (authMode : String) : Bool :=
  authMode == "OPEN" || authMode == ""

/-- app.js lines 409–413: the popup's security colour if-chain. -/
def popupSecColor (authMode : String) : String :=
  if jsIncludes authMode "OPEN" || authMode = "" then "#ef4444"
  else if jsIncludes authMode "WPA3" then "#10b981"
  else if jsIncludes authMode "WPA2" then "#f59e0b"
  else "#94a3b8"

/-- app.js lines 474–496: the filter callback of `updateMapFilters`.
`searchText` is already lowercased by the caller (line 465). -/
def featurePass (searchText selectedSession : String) (vendorFilter : Option String)
    (rssiVal : Int) (p : APProps) : Bool :=
  let signal := jsOrInt p.best_rssi (-100)
  if signal < rssiVal then false
  else if selectedSession != "all" && !((jsSplitComma (jsOrStr p.sessions "")).contains selectedSession) then false
  else if (match vendorFilter with | some v => p.Vendor != some v | none => false) then false
  else if searchText != "" then
    jsIncludes (jsToLower p.SSID) searchText ||
    jsIncludes (jsToLower p.MAC) searchText ||
    (let v := jsOrStr p.Vendor ""
     v != "" && jsIncludes (jsToLower v) searchText)
  else true

/-- One entry of `metadata.sessions` as read by `populateSessionDropdown`. -/
structure SessionMeta where
  name : String
  date : String
  ap_count : Nat
  duration_minutes : Nat
  deriving Repr, DecidableEq

/-- Insertion into a list kept descending by date (app.js line 361:
`sessions.sort((a, b) => b.date.localeCompare(a.date))`). -/
def insertSessionDesc (s : SessionMeta) : List SessionMeta → List SessionMeta
  | [] => [s]
  | t :: ts => if charListLt t.date.data s.date.data then s :: t :: ts else t :: insertSessionDesc s ts

def sortSessionsDesc (ss : List SessionMeta) : List SessionMeta :=
  ss.foldr insertSessionDesc []

/-- app.js line 367: the option text `` `${s.date} (${s.ap_count} APs)` ``. -/
def sessionOptionLabel (s : SessionMeta) : String :=
  s.date ++ " (" ++ toString s.ap_count ++ " APs)"

/-- app.js lines 359–369: the dropdown options, as (value, text) pairs; the
value of each option is `s.name` (`opt.dataset.value = s.name`). -/
def buildSessionOptions (ss : List SessionMeta) : List (String × String) :=
  ("all", "All Sessions") :: (sortSessionsDesc ss).map (fun s => (s.name, sessionOptionLabel s))

/-! ## The data pipeline, modelled from the spec

The Python pipeline (`build_data.py`: Vendor Directory, Capture Parser,
Normalizer, Identity Merger, Route Builder, Document Emitter) is not among
the checked-out sources, so the components below are modelled from the spec
(§3, §4.1, §4.4–4.6).  Coordinates are fixed-point integers (micro-degrees),
timestamps are seconds. -/

/-- Modelled from the spec (§3): a canonical Observation. -/
structure Observation where
  mac : String
  ssid : String
  authMode : String
  channel : Int
  rssi : Int
  lat : Int
  lon : Int
  timestamp : Nat
  sessionId : String
  deriving Repr, DecidableEq

/-- Modelled from the spec (§3): an AccessPointAggregate. -/
structure AccessPointAggregate where
  mac : String
  ssid : String
  authMode : String
  channel : Int
  vendor : String
  bestRssi : Int
  repLat : Int
  repLon : Int
  firstSeen : Nat
  lastSeen : Nat
  sessionIds : List String
  encounterCount : Nat
  deriving Repr, DecidableEq

/-- Value of a hex digit (both cases), for reading a MAC's first octet. -/
def hexVal (c : Char) : Nat :=
  if '0' ≤ c ∧ c ≤ '9' then c.toNat - 48
  else if 'A' ≤ c ∧ c ≤ 'F' then c.toNat - 55
  else if 'a' ≤ c ∧ c ≤ 'f' then c.toNat - 87
  else 0

/-- The first octet of a colon-separated MAC string. -/
def firstOctet (mac : String) : Nat :=
  match mac.data with
  | c1 :: c2 :: _ => 16 * hexVal c1 + hexVal c2
  | _ => 0

/-- Modelled from the spec (§4.1): the locally-administered bit is the second
bit of the first octet. -/
def isLocallyAdministered (mac : String) : Bool :=
  (firstOctet mac).testBit 1

/-- The 24-bit organizational prefix of a MAC, as the `"AA:BB:CC"` key used by
the registry table (normalized to upper case). -/
def oui24 (mac : String) : String :=
  ⟨(mac.data.map Char.toUpper).take 8⟩

/-- Modelled from the spec (§4.1): Vendor Directory `resolve(mac)`.  The
locally-administered check takes priority; an exact prefix match returns the
registered name; otherwise `"Unknown"`.  An unavailable registry is the empty
table, degrading every non-randomized MAC to `"Unknown"`. -/
def resolve (table : List (String × String)) (mac : String) : String :=
  if isLocallyAdministered mac then "Randomized"
  else
    match table.lookup (oui24 mac) with
    | some name => name
    | none => "Unknown"

/-- Modelled from the spec (§4.4): the strongest-signal Observation of a group
(head `o`, tail `rest`); on rssi ties the earlier listed one is kept. -/
def bestObs (o : Observation) (rest : List Observation) : Observation :=
  rest.foldl (fun best x => if best.rssi < x.rssi then x else best) o

/-- Modelled from the spec (§4.4): the chronologically last Observation of a
group; on timestamp ties the later listed one is kept. -/
def latestObs (o : Observation) (rest : List Observation) : Observation :=
  rest.foldl (fun best x => if best.timestamp ≤ x.timestamp then x else best) o

/-- Minimum timestamp of a nonempty group. -/
def minTimestamp (o : Observation) (rest : List Observation) : Nat :=
  rest.foldl (fun a x => min a x.timestamp) o.timestamp

/-- Maximum timestamp of a nonempty group. -/
def maxTimestamp (o : Observation) (rest : List Observation) : Nat :=
  rest.foldl (fun a x => max a x.timestamp) o.timestamp

/-- Modelled from the spec (§4.4): merge one `mac` group into an aggregate.
The `[]` case never arises from `merge` (groups are nonempty). -/
def mergeGroup (table : List (String × String)) (m : String) :
    List Observation → AccessPointAggregate
  | [] =>
    { mac := m, ssid := "", authMode := "", channel := 0, vendor := resolve table m,
      bestRssi := 0, repLat := 0, repLon := 0, firstSeen := 0, lastSeen := 0,
      sessionIds := [], encounterCount := 0 }
  | o :: rest =>
    let best := bestObs o rest
    let latest := latestObs o rest
    { mac := m
      ssid := latest.ssid
      authMode := latest.authMode
      channel := latest.channel
      vendor := resolve table m
      bestRssi := best.rssi
      repLat := best.lat
      repLon := best.lon
      firstSeen := minTimestamp o rest
      lastSeen := maxTimestamp o rest
      sessionIds := ((o :: rest).map (·.sessionId)).dedup
      encounterCount := (o :: rest).length }

/-- The distinct MACs of the input, in first-appearance order. -/
def macsOf (obs : List Observation) : List String := (obs.map (·.mac)).dedup

/-- The group of Observations sharing a given `mac`. -/
def groupOf (obs : List Observation) (m : String) : List Observation :=
  obs.filter (fun o => o.mac == m)

/-- Modelled from the spec (§4.4): `merge(all Observations)`. -/
def merge (table : List (String × String)) (obs : List Observation) :
    List AccessPointAggregate :=
  (macsOf obs).map (fun m => mergeGroup table m (groupOf obs m))

/-- Modelled from the spec (§4.4): a stable hash of the MAC string for the
jitter offset (a 32-bit polynomial string hash). -/
def macHash (mac : String) : Nat :=
  mac.data.foldl (fun h c => (h * 31 + c.toNat) % 4294967296) 7

/-- Modelled from the spec (§4.4): a deterministic bounded offset (at most
4 micro-degree units in each axis) derived from the MAC hash. -/
def jitterOffset (mac : String) : Int × Int :=
  (Int.ofNat (macHash mac % 9) - 4, Int.ofNat ((macHash mac / 9) % 9) - 4)

def repPoint (a : AccessPointAggregate) : Int × Int := (a.repLat, a.repLon)

/-- Modelled from the spec (§4.4): jitter each aggregate whose
`representativePoint` collides with another's; unique points are untouched. -/
def applyJitter (aggs : List AccessPointAggregate) : List AccessPointAggregate :=
  aggs.map (fun a =>
    if 2 ≤ (aggs.filter (fun b => repPoint b == repPoint a)).length then
      { a with repLat := a.repLat + (jitterOffset a.mac).1
               repLon := a.repLon + (jitterOffset a.mac).2 }
    else a)

/-- The distinct session ids of the input, in first-appearance order. -/
def sessionIdsOf (obs : List Observation) : List String :=
  (obs.map (·.sessionId)).dedup

/-- The Observations of one Session. -/
def obsOfSession (obs : List Observation) (sid : String) : List Observation :=
  obs.filter (fun o => o.sessionId == sid)

/-- Insertion into a list kept ascending by timestamp. -/
def insertByTime (o : Observation) : List Observation → List Observation
  | [] => [o]
  | x :: xs => if o.timestamp ≤ x.timestamp then o :: x :: xs else x :: insertByTime o xs

def sortByTime (l : List Observation) : List Observation := l.foldr insertByTime []

/-- Modelled from the spec (§4.5): the Route Builder — time-ordered (lon, lat)
pairs; fewer than two points yield no route. -/
def buildRoute (sessionObs : List Observation) : Option (List (Int × Int)) :=
  let pts := (sortByTime sessionObs).map (fun o => (o.lon, o.lat))
  if pts.length < 2 then none else some pts

/-- Modelled from the spec (§6): a feature of the output document, tagged with
its `layer` discriminator. -/
inductive OutFeature where
  | ap (a : AccessPointAggregate)
  | route (sessionId : String) (coords : List (Int × Int))
  deriving Repr, DecidableEq

def OutFeature.layer : OutFeature → String
  | .ap _ => "access_points"
  | .route _ _ => "route"

/-- Modelled from the spec (§6): one entry of `metadata.sessions`. -/
structure SessionSummary where
  name : String
  date : String
  ap_count : Nat
  duration_minutes : Nat
  deriving Repr, DecidableEq

/-- Modelled from the spec (§3, §6): the emitted OutputDocument. -/
structure OutputDocument where
  features : List OutFeature
  sessions : List SessionSummary
  deriving Repr, DecidableEq

/-- Modelled from the spec (§4.6): Document Emitter — one point feature per
aggregate, one line feature per non-empty route, plus the session summaries. -/
def emit (aggs : List AccessPointAggregate) (routes : List (String × List (Int × Int)))
    (sessions : List SessionSummary) : OutputDocument :=
  { features := aggs.map OutFeature.ap ++ routes.map (fun r => OutFeature.route r.1 r.2)
    sessions := sessions }

/-- Minimum timestamp of a session's Observation list (0 when empty). -/
def minTsOf : List Observation → Nat
  | [] => 0
  | o :: rest => minTimestamp o rest

/-- Maximum timestamp of a session's Observation list (0 when empty). -/
def maxTsOf : List Observation → Nat
  | [] => 0
  | o :: rest => maxTimestamp o rest

/-- Modelled from the spec (§3, §6): a Session summary — the id doubles as the
displayed name/date key, `ap_count` counts aggregates seen in the session,
`duration_minutes` is the timestamp span in minutes. -/
def sessionSummaryOf (obs : List Observation) (aggs : List AccessPointAggregate)
    (sid : String) : SessionSummary :=
  let so := obsOfSession obs sid
  { name := sid
    date := sid
    ap_count := (aggs.filter (fun a => a.sessionIds.contains sid)).length
    duration_minutes := (maxTsOf so - minTsOf so) / 60 }

/-- Modelled from the spec (§2, §4.4–4.6): the whole pipeline, from normalized
Observations and the registry table to the output document.  `runNumber`
identifies the run; per the spec the output may not depend on it. -/
def runPipeline (runNumber : Nat) (table : List (String × String))
    (obs : List Observation) : OutputDocument :=
  let aggs := applyJitter (merge table obs)
  let sids := sessionIdsOf obs
  let routes := sids.filterMap (fun sid =>
    (buildRoute (obsOfSession obs sid)).map (fun r => (sid, r)))
  emit aggs routes (sids.map (sessionSummaryOf obs aggs))

/-- The aggregates carried by a document's access-point features. -/
def docAggregates (d : OutputDocument) : List AccessPointAggregate :=
  d.features.filterMap (fun f => match f with | .ap a => some a | .route _ _ => none)

/-- Serialization of an integer pair. -/
def serializePt (p : Int × Int) : String := toString p.1 ++ "," ++ toString p.2

/-- Modelled from the spec (§4.6): byte serialization of one feature. -/
def serializeFeature : OutFeature → String
  | .ap a =>
    a.mac ++ "|" ++ a.ssid ++ "|" ++ a.authMode ++ "|" ++ toString a.channel ++ "|" ++
    a.vendor ++ "|" ++ toString a.bestRssi ++ "|" ++ serializePt (a.repLat, a.repLon) ++ "|" ++
    toString a.firstSeen ++ "|" ++ toString a.lastSeen ++ "|" ++
    String.intercalate "," a.sessionIds ++ "|" ++ toString a.encounterCount
  | .route sid coords =>
    sid ++ "|" ++ String.intercalate ";" (coords.map serializePt)

/-- Modelled from the spec (§4.6): byte serialization of a summary. -/
def serializeSummary (s : SessionSummary) : String :=
  s.name ++ "|" ++ s.date ++ "|" ++ toString s.ap_count ++ "|" ++ toString s.duration_minutes

/-- Modelled from the spec (§4.6): byte serialization of the document. -/
def serializeDoc (d : OutputDocument) : String :=
  String.intercalate "\n" (d.features.map serializeFeature) ++ "\n--\n" ++
  String.intercalate "\n" (d.sessions.map serializeSummary)

/-- The bytes a pipeline run writes out. -/
def runPipelineBytes (runNumber : Nat) (table : List (String × String))
    (obs : List Observation) : String :=
  serializeDoc (runPipeline runNumber table obs)

/-! ## Sample data for the concrete witnesses -/

def obsSample1 : Observation :=
  ⟨"AA:BB:CC:00:00:01", "caffe", "WPA2_PSK", 6, -70, 454743, 78927, 100, "s1"⟩

def obsSample2 : Observation :=
  ⟨"AA:BB:CC:00:00:01", "caffe5", "WPA2_PSK", 6, -40, 454744, 78928, 200, "s1"⟩

def aggSample : AccessPointAggregate :=
  mergeGroup [] "AA:BB:CC:00:00:01" (groupOf [obsSample1, obsSample2] "AA:BB:CC:00:00:01")

def otherFeatureSample : ConsumerFeature := ⟨some "heatmap", 2⟩

def sessionMetaSample : SessionMeta := ⟨"260204_164121", "2026-02-04", 345, 45⟩

def apPropsSample : APProps :=
  ⟨"AA:BB:CC:00:00:01", "caffe", "WPA2_PSK", some "Cisco", some (-70), some "6",
   some "260204_164121,260205_194604"⟩

def apPropsZeroRssi : APProps :=
  ⟨"AA:BB:CC:00:00:02", "cafe", "OPEN", none, some 0, none, none⟩

def apPropsCh36 : APProps :=
  ⟨"AA:BB:CC:00:00:03", "five", "WPA2_PSK", some "Cisco", some (-70), some "36", some "s1"⟩

/-! ## Lemmas about the Identity Merger -/

theorem bestObs_mem (o : Observation) (rest : List Observation) :
    bestObs o rest ∈ o :: rest := by
  induction rest generalizing o with
  | nil => simp [bestObs]
  | cons x xs ih =>
    have h := ih (if o.rssi < x.rssi then x else o)
    simp only [bestObs, List.foldl_cons] at *
    rcases List.mem_cons.mp h with h1 | h2
    · rw [h1]
      split
      · exact List.mem_cons_of_mem _ (List.mem_cons_self _ _)
      · exact List.mem_cons_self _ _
    · exact List.mem_cons_of_mem _ (List.mem_cons_of_mem _ h2)

theorem bestObs_ge (o : Observation) (rest : List Observation) :
    ∀ x ∈ o :: rest, x.rssi ≤ (bestObs o rest).rssi := by
  induction rest generalizing o with
  | nil =>
    intro x hx
    rcases List.mem_cons.mp hx with h | h
    · rw [h]; exact le_refl _
    · simp at h
  | cons y ys ih =>
    intro x hx
    have hb : bestObs o (y :: ys) = bestObs (if o.rssi < y.rssi then y else o) ys := rfl
    have hhead : (if o.rssi < y.rssi then y else o).rssi ≤
        (bestObs (if o.rssi < y.rssi then y else o) ys).rssi :=
      ih _ _ (List.mem_cons_self _ _)
    rw [hb]
    rcases List.mem_cons.mp hx with h | h
    · rw [h]
      refine le_trans ?_ hhead
      split
      · next hlt => exact le_of_lt hlt
      · exact le_refl _
    · rcases List.mem_cons.mp h with h2 | h2
      · rw [h2]
        refine le_trans ?_ hhead
        split
        · exact le_refl _
        · next hnlt => exact not_lt.mp hnlt
      · exact ih _ x (List.mem_cons_of_mem _ h2)

theorem foldlMin_le (rest : List Observation) :
    ∀ t : Nat, rest.foldl (fun a x => min a x.timestamp) t ≤ t := by
  induction rest with
  | nil => intro t; simp
  | cons x xs ih =>
    intro t
    simp only [List.foldl_cons]
    exact le_trans (ih _) (min_le_left _ _)

theorem le_foldlMax (rest : List Observation) :
    ∀ t : Nat, t ≤ rest.foldl (fun a x => max a x.timestamp) t := by
  induction rest with
  | nil => intro t; simp
  | cons x xs ih =>
    intro t
    simp only [List.foldl_cons]
    exact le_trans (le_max_left _ _) (ih _)

theorem mergeGroup_mac (table : List (String × String)) (m : String)
    (g : List Observation) : (mergeGroup table m g).mac = m := by
  cases g <;> rfl

theorem merge_macs (table : List (String × String)) (obs : List Observation) :
    (merge table obs).map (·.mac) = macsOf obs := by
  unfold merge
  rw [List.map_map]
  have h : ((fun a : AccessPointAggregate => a.mac) ∘
      fun m => mergeGroup table m (groupOf obs m)) = id := by
    funext m
    exact mergeGroup_mac table m (groupOf obs m)
  rw [h, List.map_id]

theorem groupOf_ne_nil {obs : List Observation} {m : String} (h : m ∈ macsOf obs) :
    groupOf obs m ≠ [] := by
  unfold macsOf at h
  rw [List.mem_dedup] at h
  rcases List.mem_map.mp h with ⟨o, ho, hom⟩
  intro hnil
  have hmem : o ∈ groupOf obs m := by
    unfold groupOf
    rw [List.mem_filter]
    exact ⟨ho, by simp [hom]⟩
  rw [hnil] at hmem
  simp at hmem

theorem mergeGroup_invariants (table : List (String × String)) (m : String)
    (o : Observation) (rest : List Observation) :
    (mergeGroup table m (o :: rest)).firstSeen ≤ (mergeGroup table m (o :: rest)).lastSeen ∧
    (mergeGroup table m (o :: rest)).sessionIds ≠ [] ∧
    (mergeGroup table m (o :: rest)).encounterCount = (o :: rest).length := by
  refine ⟨?_, ?_, rfl⟩
  · show minTimestamp o rest ≤ maxTimestamp o rest
    exact le_trans (foldlMin_le rest o.timestamp) (le_foldlMax rest o.timestamp)
  · show ((o :: rest).map (·.sessionId)).dedup ≠ []
    apply List.ne_nil_of_mem (a := o.sessionId)
    rw [List.mem_dedup]
    exact List.mem_map.mpr ⟨o, List.mem_cons_self _ _, rfl⟩

theorem mem_applyJitter {l : List AccessPointAggregate} {a' : AccessPointAggregate}
    (h : a' ∈ applyJitter l) :
    ∃ a ∈ l, a'.mac = a.mac ∧ a'.firstSeen = a.firstSeen ∧ a'.lastSeen = a.lastSeen ∧
      a'.sessionIds = a.sessionIds ∧ a'.encounterCount = a.encounterCount := by
  unfold applyJitter at h
  rcases List.mem_map.mp h with ⟨a, ha, heq⟩
  refine ⟨a, ha, ?_⟩
  rw [← heq]
  split <;> simp

theorem applyJitter_macs (l : List AccessPointAggregate) :
    (applyJitter l).map (·.mac) = l.map (·.mac) := by
  unfold applyJitter
  rw [List.map_map]
  apply List.map_congr_left
  intro a _
  simp only [Function.comp]
  split <;> rfl

theorem docAggregates_emit (aggs : List AccessPointAggregate)
    (routes : List (String × List (Int × Int))) (sessions : List SessionSummary) :
    docAggregates (emit aggs routes sessions) = aggs := by
  unfold docAggregates emit
  simp only [List.filterMap_append, List.filterMap_map, Function.comp]
  have h1 : List.filterMap ((fun f : OutFeature =>
      match f with | .ap a => some a | .route _ _ => none) ∘ OutFeature.ap) aggs = aggs := by
    have : ((fun f : OutFeature =>
        match f with | .ap a => some a | .route _ _ => none) ∘ OutFeature.ap) =
        fun a : AccessPointAggregate => some a := rfl
    rw [this, List.filterMap_some]
  have h2 : List.filterMap ((fun f : OutFeature =>
      match f with | .ap a => some a | .route _ _ => none) ∘
        fun r : String × List (Int × Int) => OutFeature.route r.1 r.2) routes = [] := by
    apply List.filterMap_eq_nil_iff.mpr
    intro r _
    rfl
  rw [h1, h2, List.append_nil]

/-! ## Lemmas about the stats loop -/

theorem secStep_total (c : SecCounts) (authMode : String) :
    (secStep c authMode).total = c.total + 1 := by
  unfold secStep
  cases classifySecurity authMode <;> simp [SecCounts.total] <;> omega

theorem rssiStep_total (r : RssiRanges) (rssi : Int) :
    (rssiStep r rssi).total = r.total + 1 := by
  unfold rssiStep
  repeat' split
  all_goals simp [RssiRanges.total] <;> omega

theorem statsStep_sec (st : StatsState) (p : APProps) :
    (statsStep st p).sec = secStep st.sec p.AuthMode := by
  unfold statsStep
  cases channelOf p.Channel with
  | none => rfl
  | some ch =>
    dsimp only
    split <;> rfl

theorem statsStep_rssi (st : StatsState) (p : APProps) :
    (statsStep st p).rssi = rssiStep st.rssi (jsOrInt p.best_rssi (-100)) := by
  unfold statsStep
  cases channelOf p.Channel with
  | none => rfl
  | some ch =>
    dsimp only
    split <;> rfl

theorem statsStep_channel_none (st : StatsState) (p : APProps)
    (h : channelBucket p.Channel = none) :
    (statsStep st p).channelCounts = st.channelCounts := by
  unfold channelBucket at h
  unfold statsStep
  cases hco : channelOf p.Channel with
  | none => rfl
  | some ch =>
    rw [hco] at h
    dsimp only at h ⊢
    split
    · next hin => rw [if_pos hin] at h; simp at h
    · rfl

theorem foldl_statsStep_sec_total (fs : List APProps) :
    ∀ st : StatsState, ((fs.foldl statsStep st).sec).total = st.sec.total + fs.length := by
  induction fs with
  | nil => intro st; simp
  | cons p ps ih =>
    intro st
    simp only [List.foldl_cons, List.length_cons]
    rw [ih (statsStep st p), statsStep_sec, secStep_total]
    omega

/-! ## Claim theorems -/

/-- C1: for every non-empty group of Observations sharing the same mac, the
aggregate produced by the Identity Merger's merge has `bestRssi` equal to the
maximum rssi among the group's Observations, and `representativePoint` equal
to the (lat, lon) of an Observation that attained that maximum rssi. -/
theorem merger_bestRssi_and_representativePoint
    (table : List (String × String)) (m : String) (g : List Observation)
    (hne : g ≠ []) (hmac : ∀ o ∈ g, o.mac = m) :
    (∀ o ∈ g, o.rssi ≤ (mergeGroup table m g).bestRssi) ∧
    ∃ o ∈ g, o.rssi = (mergeGroup table m g).bestRssi ∧
      (mergeGroup table m g).repLat = o.lat ∧ (mergeGroup table m g).repLon = o.lon := by
  match g with
  | [] => exact absurd rfl hne
  | o :: rest =>
    constructor
    · intro x hx
      have h := bestObs_ge o rest x hx
      simpa [mergeGroup] using h
    · exact ⟨bestObs o rest, bestObs_mem o rest, by simp [mergeGroup], by simp [mergeGroup],
        by simp [mergeGroup]⟩

/-- Witness for C1 at a concrete two-Observation group. -/
theorem merger_bestRssi_witness :
    obsSample1.rssi ≤ (mergeGroup [] "AA:BB:CC:00:00:01" [obsSample1, obsSample2]).bestRssi :=
  (merger_bestRssi_and_representativePoint [] "AA:BB:CC:00:00:01" [obsSample1, obsSample2]
    (by decide) (by decide)).1 obsSample1 (by decide)

/-- C2: in the emitted OutputDocument no two AccessPointAggregates share the
same mac, every aggregate satisfies `firstSeen ≤ lastSeen` and has a non-empty
`sessionIds` set, and every aggregate's `encounterCount` equals the number of
Observations merged into its group. -/
theorem pipeline_output_invariants (r : Nat) (table : List (String × String))
    (obs : List Observation) :
    ((docAggregates (runPipeline r table obs)).map (·.mac)).Nodup ∧
    ∀ a ∈ docAggregates (runPipeline r table obs),
      a.firstSeen ≤ a.lastSeen ∧ a.sessionIds ≠ [] ∧
      a.encounterCount = (groupOf obs a.mac).length := by
  have hdoc : docAggregates (runPipeline r table obs) = applyJitter (merge table obs) := by
    unfold runPipeline
    exact docAggregates_emit _ _ _
  rw [hdoc]
  constructor
  · rw [applyJitter_macs, merge_macs]
    exact List.nodup_dedup _
  · intro a ha
    rcases mem_applyJitter ha with ⟨b, hb, hmac, hfs, hls, hsid, hcnt⟩
    unfold merge at hb
    rcases List.mem_map.mp hb with ⟨m, hm, hbm⟩
    have hbmac : b.mac = m := by rw [← hbm]; exact mergeGroup_mac table m _
    obtain ⟨o, rest, hg⟩ : ∃ o rest, groupOf obs m = o :: rest := by
      cases hgo : groupOf obs m with
      | nil => exact absurd hgo (groupOf_ne_nil hm)
      | cons o rest => exact ⟨o, rest, rfl⟩
    have hinv := mergeGroup_invariants table m o rest
    rw [← hg] at hinv
    rw [hbm] at hinv
    refine ⟨?_, ?_, ?_⟩
    · rw [hfs, hls]; exact hinv.1
    · rw [hsid]; exact hinv.2.1
    · rw [hcnt, hmac, hbmac]; exact hinv.2.2

/-- Witness for C2 at a concrete two-Observation input. -/
theorem pipeline_output_invariants_witness :
    ((docAggregates (runPipeline 0 [] [obsSample1, obsSample2])).map (·.mac)).Nodup ∧
    aggSample.firstSeen ≤ aggSample.lastSeen ∧ aggSample.sessionIds ≠ [] ∧
    aggSample.encounterCount = (groupOf [obsSample1, obsSample2] aggSample.mac).length :=
  ⟨(pipeline_output_invariants 0 [] [obsSample1, obsSample2]).1,
   (pipeline_output_invariants 0 [] [obsSample1, obsSample2]).2 aggSample (by decide)⟩

/-- C3: two pipeline runs over identical input capture data and identical
vendor registry contents emit byte-identical output documents, jitter offsets
included; the emitted bytes depend only on the registry table and the
Observations, never on the run. -/
theorem pipeline_runs_byte_identical :
    ∀ (r1 r2 : Nat) (table : List (String × String)) (obs : List Observation),
      runPipelineBytes r1 table obs = runPipelineBytes r2 table obs :=
  fun _ _ _ _ => rfl

/-- C4: a MAC with the locally-administered bit set resolves to
`"Randomized"` regardless of the registry table; a MAC with that bit clear
and no exact 24-bit-prefix match (in particular with an empty registry)
resolves to `"Unknown"`. -/
theorem vendor_resolve_randomized_and_unknown (table : List (String × String)) (mac : String) :
    (isLocallyAdministered mac = true → resolve table mac = "Randomized") ∧
    (isLocallyAdministered mac = false → table.lookup (oui24 mac) = none →
      resolve table mac = "Unknown") := by
  constructor
  · intro h
    unfold resolve
    rw [if_pos h]
  · intro h hlook
    unfold resolve
    rw [if_neg (by simp [h]), hlook]

/-- Witness for C4: `02:AA:BB:CC:DD:EE` is randomized whatever the table says,
and an unmatched universally-administered MAC over the empty registry is
unknown. -/
theorem vendor_resolve_witness :
    resolve [("00:11:22", "Acme")] "02:AA:BB:CC:DD:EE" = "Randomized" ∧
    resolve [] "00:AA:BB:CC:DD:EE" = "Unknown" :=
  ⟨(vendor_resolve_randomized_and_unknown [("00:11:22", "Acme")] "02:AA:BB:CC:DD:EE").1
      (by decide),
   (vendor_resolve_randomized_and_unknown [] "00:AA:BB:CC:DD:EE").2 (by decide) (by decide)⟩

/-- C5: an empty auth-mode string is classified identically to `"OPEN"` and
never upgraded to a secure class — the stats page counts `AuthMode == ""` in
the open bucket, and the map's open-network highlight filter and popup colour
treat `AuthMode == ""` the same as `AuthMode == "OPEN"`. -/
theorem empty_auth_equivalent_to_open :
    classifySecurity "" = classifySecurity "OPEN" ∧
    classifySecurity "" = SecClass.openNet ∧
    openLayerFilter "" = openLayerFilter "OPEN" ∧
    openLayerFilter "" = true ∧
    popupSecColor "" = popupSecColor "OPEN" ∧
    popupSecColor "" = "#ef4444" := by
  decide

/-! ### Lemmas for the layer partition and session dropdown -/

theorem mem_insertSessionDesc (s x : SessionMeta) (l : List SessionMeta) :
    x ∈ insertSessionDesc s l ↔ x = s ∨ x ∈ l := by
  induction l with
  | nil => simp [insertSessionDesc]
  | cons t ts ih =>
    unfold insertSessionDesc
    split
    · simp [List.mem_cons]
    · rw [List.mem_cons, ih, List.mem_cons]
      tauto

theorem mem_sortSessionsDesc (x : SessionMeta) (ss : List SessionMeta) :
    x ∈ sortSessionsDesc ss ↔ x ∈ ss := by
  unfold sortSessionsDesc
  induction ss with
  | nil => simp
  | cons t ts ih =>
    simp only [List.foldr_cons, List.mem_cons]
    rw [mem_insertSessionDesc, ih]

/-- C6: every feature of the output document carries a `layer` discriminator
equal to `"access_points"` or `"route"`, and the map consumer partitions
features solely on this tag: `layer == "access_points"` features feed the AP
source, `layer == "route"` features feed the route source, and a feature with
any other `layer` value lands in neither. -/
theorem layer_discriminator_partition :
    (∀ (r : Nat) (table : List (String × String)) (obs : List Observation),
      ∀ f ∈ (runPipeline r table obs).features,
        OutFeature.layer f = "access_points" ∨ OutFeature.layer f = "route") ∧
    (∀ (fs : List ConsumerFeature) (f : ConsumerFeature),
      f ∈ apFeatureSel fs ↔ f ∈ fs ∧ f.layer = some "access_points") ∧
    (∀ (fs : List ConsumerFeature) (f : ConsumerFeature),
      f ∈ routeFeatureSel fs ↔ f ∈ fs ∧ f.layer = some "route") ∧
    (∀ (fs : List ConsumerFeature) (f : ConsumerFeature),
      f.layer ≠ some "access_points" → f.layer ≠ some "route" →
        f ∉ apFeatureSel fs ∧ f ∉ routeFeatureSel fs) := by
  have hap : ∀ (fs : List ConsumerFeature) (f : ConsumerFeature),
      f ∈ apFeatureSel fs ↔ f ∈ fs ∧ f.layer = some "access_points" := by
    intro fs f
    unfold apFeatureSel
    rw [List.mem_filter]
    simp
  have hrt : ∀ (fs : List ConsumerFeature) (f : ConsumerFeature),
      f ∈ routeFeatureSel fs ↔ f ∈ fs ∧ f.layer = some "route" := by
    intro fs f
    unfold routeFeatureSel
    rw [List.mem_filter]
    simp
  refine ⟨?_, hap, hrt, ?_⟩
  · intro r table obs f hf
    unfold runPipeline emit at hf
    dsimp only at hf
    rcases List.mem_append.mp hf with h | h
    · rcases List.mem_map.mp h with ⟨a, _, ha⟩
      left; rw [← ha]; rfl
    · rcases List.mem_map.mp h with ⟨rt, _, hrt2⟩
      right; rw [← hrt2]; rfl
  · intro fs f h1 h2
    constructor
    · intro hmem
      exact h1 ((hap fs f).mp hmem).2
    · intro hmem
      exact h2 ((hrt fs f).mp hmem).2

/-- Witness for C6: a concrete emitted feature is tagged, and a feature tagged
`"heatmap"` lands in neither consumer source. -/
theorem layer_discriminator_witness :
    (OutFeature.layer (OutFeature.ap aggSample) = "access_points" ∨
     OutFeature.layer (OutFeature.ap aggSample) = "route") ∧
    (otherFeatureSample ∉ apFeatureSel [otherFeatureSample] ∧
     otherFeatureSample ∉ routeFeatureSel [otherFeatureSample]) :=
  ⟨layer_discriminator_partition.1 0 [] [obsSample1, obsSample2]
      (OutFeature.ap aggSample) (by decide),
   layer_discriminator_partition.2.2.2 [otherFeatureSample] otherFeatureSample
      (by decide) (by decide)⟩

/-- C7: the session dropdown is built from the `name`, `date` and `ap_count`
fields of `metadata.sessions`, and for a selected session id other than
`"all"` the session filter is exactly membership of the id in the feature's
comma-split `sessions` property; selecting `"all"` imposes no session
restriction (the filter result does not depend on the `sessions` property). -/
theorem session_dropdown_and_filter :
    (∀ (ss : List SessionMeta) (s : SessionMeta), s ∈ ss →
        (s.name, sessionOptionLabel s) ∈ buildSessionOptions ss) ∧
    (∀ (search sess : String) (vf : Option String) (rssiVal : Int) (p : APProps),
        sess ≠ "all" →
        featurePass search sess vf rssiVal p =
          (featurePass search "all" vf rssiVal p &&
            (jsSplitComma (jsOrStr p.sessions "")).contains sess)) ∧
    (∀ (search : String) (vf : Option String) (rssiVal : Int) (p : APProps)
        (x y : Option String),
        featurePass search "all" vf rssiVal { p with sessions := x } =
          featurePass search "all" vf rssiVal { p with sessions := y }) := by
  refine ⟨?_, ?_, ?_⟩
  · intro ss s hs
    unfold buildSessionOptions
    rw [List.mem_cons]
    right
    exact List.mem_map.mpr ⟨s, (mem_sortSessionsDesc s ss).mpr hs, rfl⟩
  · intro search sess vf rssiVal p hne
    have hb : (sess != "all") = true := by simpa using hne
    unfold featurePass
    dsimp only
    by_cases hsig : jsOrInt p.best_rssi (-100) < rssiVal
    · rw [if_pos hsig, if_pos hsig]; rfl
    · rw [if_neg hsig, if_neg hsig]
      cases hc : (jsSplitComma (jsOrStr p.sessions "")).contains sess
      all_goals (rw [hb]; simp)
  · intro search vf rssiVal p x y
    unfold featurePass
    rfl

/-- Witness for C7 at a concrete session list and feature. -/
theorem session_dropdown_witness :
    (sessionMetaSample.name, sessionOptionLabel sessionMetaSample) ∈
        buildSessionOptions [sessionMetaSample] ∧
    featurePass "" "260204_164121" none (-100) apPropsSample =
      (featurePass "" "all" none (-100) apPropsSample &&
        (jsSplitComma (jsOrStr apPropsSample.sessions "")).contains "260204_164121") :=
  ⟨session_dropdown_and_filter.1 [sessionMetaSample] sessionMetaSample (by decide),
   session_dropdown_and_filter.2.1 "" "260204_164121" none (-100) apPropsSample (by decide)⟩

/-- C8: in the map's RSSI filter a missing or zero `best_rssi` is coerced to
−100 dBm before comparison, so for every slider threshold strictly above −100
a feature with `best_rssi = 0` is excluded from the map. -/
theorem rssi_zero_coerced_and_excluded :
    jsOrInt none (-100) = -100 ∧ jsOrInt (some 0) (-100) = -100 ∧
    ∀ (search sess : String) (vf : Option String) (t : Int) (p : APProps),
      -100 < t → p.best_rssi = some 0 →
      featurePass search sess vf t p = false := by
  refine ⟨rfl, rfl, ?_⟩
  intro search sess vf t p ht hp
  unfold featurePass
  dsimp only
  rw [hp]
  have hsig : jsOrInt (some 0) (-100) < t := by
    simpa [jsOrInt] using ht
  rw [if_pos hsig]

/-- Witness for C8: a `best_rssi = 0` feature is dropped at threshold −80. -/
theorem rssi_zero_witness :
    featurePass "" "all" none (-80) apPropsZeroRssi = false :=
  rssi_zero_coerced_and_excluded.2.2 "" "all" none (-80) apPropsZeroRssi
    (by decide) (by decide)

/-- C9: the stats security classification is a total partition with precedence
WPA3 > WPA2 > open > legacy: after processing, the four counters sum to the
number of features; a mode containing both WPA2 and WPA3 counts as WPA3, and
`""` and `"[]"` count as open. -/
theorem security_counters_partition :
    (∀ fs : List APProps, ((runStats fs).sec).total = fs.length) ∧
    classifySecurity "WPA2_WPA3_PSK" = SecClass.wpa3 ∧
    classifySecurity "" = SecClass.openNet ∧
    classifySecurity "[]" = SecClass.openNet := by
  refine ⟨?_, by decide, by decide, by decide⟩
  intro fs
  unfold runStats
  rw [foldl_statsStep_sec_total]
  show 0 + fs.length = fs.length
  exact Nat.zero_add _

/-- C10: a feature whose `Channel` is missing, non-numeric, or outside 1..14
contributes to no channel bucket, while still contributing to the total AP
count and to the security, signal and vendor statistics. -/
theorem channel_chart_24ghz_only (st : StatsState) (p : APProps)
    (h : channelBucket p.Channel = none) :
    (∀ c, (statsStep st p).channelCounts c = st.channelCounts c) ∧
    ((statsStep st p).sec).total = st.sec.total + 1 ∧
    ((statsStep st p).rssi).total = st.rssi.total + 1 ∧
    (∀ vc : String → Nat, vendorStep vc p (jsVendor p) = vc (jsVendor p) + 1) ∧
    (∀ fs : List APProps, totalWifi (p :: fs) = totalWifi fs + 1) := by
  refine ⟨?_, ?_, ?_, ?_, ?_⟩
  · intro c
    rw [statsStep_channel_none st p h]
  · rw [statsStep_sec, secStep_total]
  · rw [statsStep_rssi, rssiStep_total]
  · intro vc
    unfold vendorStep
    rw [if_pos rfl]
  · intro fs
    rfl

/-- Witness for C10: a 5 GHz channel-36 feature updates no 2.4 GHz bucket but
is still counted by the security tally. -/
theorem channel_chart_witness :
    (statsStep initStats apPropsCh36).channelCounts 6 = initStats.channelCounts 6 ∧
    ((statsStep initStats apPropsCh36).sec).total = initStats.sec.total + 1 :=
  ⟨(channel_chart_24ghz_only initStats apPropsCh36 (by decide)).1 6,
   (channel_chart_24ghz_only initStats apPropsCh36 (by decide)).2.1⟩

end NetStalker
